import Mathlib

/-!
Shallow embedding of the status-normalization core of the infra-status
dashboard (lib/statusSources.ts).  The TypeScript source is translated into
executable Lean definitions: each async fetcher becomes a pure function of an
explicit network-behaviour value (what the underlying HTTP call did) together
with the current timestamp, and the regex-based text processing is modelled by
character-level scanners that implement the specific patterns the source uses.
-/

-- ─────────────────────────────
-- TYPES (lib/statusSources.ts, lines 7-23)
-- ─────────────────────────────

inductive StatusLevel where
  | operational
  | degraded
  | major_outage
deriving DecidableEq, Repr

structure StatusItem where
  title : String
  date : Option String := none
  link : Option String := none
deriving DecidableEq, Repr

structure StatusSummary where
  id : String
  name : String
  status : StatusLevel
  detailUrl : Option String := none
  lastUpdated : Option String := none
  message : Option String := none
  latestItems : Option (List StatusItem) := none
deriving DecidableEq, Repr

-- ─────────────────────────────
-- CHARACTER-LEVEL HELPERS (model of the JS string/regex primitives)
-- ─────────────────────────────

/-- Model of the JS whitespace class used by trim / trimEnd / the regex \s . -/
def isWsChar (c : Char) : Bool := c.isWhitespace

/-- Case-sensitive character comparison. -/
def chEqCS (a b : Char) : Bool := a == b

/-- Case-insensitive character comparison (for the /i regex flag). -/
def chEqCI (a b : Char) : Bool := a.toLower == b.toLower

/-- Does the pattern match at the head of the list, character by character? -/
def matchesAt (eq : Char → Char → Bool) : List Char → List Char → Bool
  | [], _ => true
  | _ :: _, [] => false
  | p :: ps, c :: cs => eq p c && matchesAt eq ps cs

/-- Split a character list at the first occurrence of a pattern: returns
(text before the match, the matched original characters, text after). -/
def splitOnPat (eq : Char → Char → Bool) (pat : List Char) :
    List Char → Option (List Char × List Char × List Char)
  | [] => if pat.isEmpty then some ([], [], []) else none
  | c :: cs =>
    if matchesAt eq pat (c :: cs) then
      some ([], (c :: cs).take pat.length, (c :: cs).drop pat.length)
    else
      match splitOnPat eq pat cs with
      | some (pre, m, post) => some (c :: pre, m, post)
      | none => none

/-- Model of JS `s.includes(pat)` (case-sensitive substring test). -/
def strIncludes (s pat : String) : Bool :=
  (splitOnPat chEqCS pat.toList s.toList).isSome

/-- Model of JS `s.toLowerCase()`. -/
def strLower (s : String) : String := ⟨s.toList.map Char.toLower⟩

/-- Drop trailing whitespace characters. -/
def trimEndChars (l : List Char) : List Char := (l.reverse.dropWhile isWsChar).reverse

/-- Drop leading and trailing whitespace characters. -/
def trimChars (l : List Char) : List Char := trimEndChars (l.dropWhile isWsChar)

/-- Model of JS `s.trim()`. -/
def trimStr (s : String) : String := ⟨trimChars s.toList⟩

/-- Model of JS `s.trimEnd()`. -/
def trimEndStr (s : String) : String := ⟨trimEndChars s.toList⟩

/-- Model of JS `s.slice(0, e)` for a possibly negative end index. -/
def jsSliceTo (s : String) (e : Int) : String :=
  let n : Int := s.length
  let stop : Int := if e < 0 then (if n + e < 0 then 0 else n + e) else (if e < n then e else n)
  ⟨s.toList.take stop.toNat⟩

/-- Remove every occurrence of a literal pattern (JS global replace with ""). -/
def removeAllPat (pat : List Char) : Nat → List Char → List Char
  | 0, l => l
  | fuel + 1, l =>
    match splitOnPat chEqCS pat l with
    | none => l
    | some (pre, _, post) => pre ++ removeAllPat pat fuel post

/-- Global replace of the regex <[^>]+> with a single space: from each '<',
if at least one non-'>' character is followed by '>', the whole tag is
replaced by ' '; otherwise scanning continues at the next character. -/
def stripTags : Nat → List Char → List Char
  | 0, l => l
  | _, [] => []
  | fuel + 1, c :: cs =>
    if c == '<' then
      let inner := cs.takeWhile (fun d => d != '>')
      let rest := cs.drop inner.length
      if inner.isEmpty then c :: stripTags fuel cs
      else
        match rest with
        | '>' :: post => ' ' :: stripTags fuel post
        | _ => c :: stripTags fuel cs
    else c :: stripTags fuel cs

/-- Global replace of the regex \s+ with a single space. -/
def collapseWs : Nat → List Char → List Char
  | 0, l => l
  | _, [] => []
  | fuel + 1, c :: cs =>
    if isWsChar c then ' ' :: collapseWs fuel (cs.dropWhile isWsChar)
    else c :: collapseWs fuel cs

def cdataOpenPat : List Char := "<![CDATA[".toList

def cdataClosePat : List Char := "]]>".toList

-- ─────────────────────────────
-- TEXT NORMALIZER (lib/statusSources.ts, lines 32-49)
-- ─────────────────────────────

/-- `stripHtml`: strip CDATA markers and HTML/XML tags, collapse whitespace,
trim (statusSources.ts lines 32-40). -/
def stripHtml (input : String) : String :=
  if input.isEmpty then ""
  else
    let l0 := input.toList
    let l1 := removeAllPat cdataOpenPat (l0.length + 1) l0
    let l2 := removeAllPat cdataClosePat (l1.length + 1) l1
    let l3 := stripTags (l2.length + 1) l2
    let l4 := collapseWs (l3.length + 1) l3
    ⟨trimChars l4⟩

/-- `truncate`: truncate to max length with ellipsis
(statusSources.ts lines 45-49); the slice keeps JS semantics. -/
def truncate (input : String) (max : Nat) : String :=
  if input.isEmpty then ""
  else if input.length ≤ max then input
  else trimEndStr (jsSliceTo input ((max : Int) - 1)) ++ "…"

-- ─────────────────────────────
-- SEVERITY CLASSIFIERS (lib/statusSources.ts, lines 55-100 and 196-209)
-- ─────────────────────────────

/-- `inferStatusFromText` (statusSources.ts lines 55-100): keyword scan over
the lowercased text, red tier before amber tier before green tier. -/
def inferStatusFromText (text : String) : StatusLevel :=
  let lower := strLower text
  if lower.isEmpty then
    .operational
  else if strIncludes lower "major outage" || strIncludes lower "critical" ||
      strIncludes lower "unavailable" || strIncludes lower "service disruption" ||
      strIncludes lower "downtime" || strIncludes lower "outage" then
    .major_outage
  else if strIncludes lower "partial" || strIncludes lower "degraded" ||
      strIncludes lower "degradation" || strIncludes lower "incident" ||
      strIncludes lower "maintenance" || strIncludes lower "investigating" ||
      strIncludes lower "monitoring" then
    .degraded
  else if strIncludes lower "resolved" || strIncludes lower "operational" ||
      strIncludes lower "normal" || strIncludes lower "all systems" then
    .operational
  else
    .operational

/-- `mapStatuspageIndicator` (statusSources.ts lines 196-209): the switch on
the vendor indicator string, defaulting to degraded. -/
def mapStatuspageIndicator (indicator : Option String) : StatusLevel :=
  match indicator with
  | some s =>
    if s = "none" then .operational
    else if s = "minor" then .degraded
    else if s = "major" then .major_outage
    else if s = "critical" then .major_outage
    else .degraded
  | none => .degraded

-- ─────────────────────────────
-- REGEX EXTRACTION MODEL (the specific patterns of the RSS fetcher)
-- ─────────────────────────────

/-- First match of the lazy pattern openT([\s\S]*?)closeT with the /i flag:
the capture runs from the first occurrence of the opening tag to the first
occurrence of the closing tag after it (lazy star), or no match at all. -/
def matchLazyCapture (openT closeT s : String) : Option String :=
  match splitOnPat chEqCI openT.toList s.toList with
  | none => none
  | some (_, _, afterOpen) =>
    match splitOnPat chEqCI closeT.toList afterOpen with
    | none => none
    | some (pre, _, _) => some ⟨pre⟩

/-- First match of the pattern openT([^<]*)closeT with the /i flag: at each
occurrence of the opening tag, the capture is the run of non-'<' characters,
which must be followed immediately by the closing tag; otherwise the scan
resumes after that opening tag. -/
def matchNoLtAux (openT closeT : List Char) : Nat → List Char → Option (List Char)
  | 0, _ => none
  | fuel + 1, l =>
    match splitOnPat chEqCI openT l with
    | none => none
    | some (_, _, afterOpen) =>
      let content := afterOpen.takeWhile (fun d => d != '<')
      let rest := afterOpen.drop content.length
      if matchesAt chEqCI closeT rest then some content
      else matchNoLtAux openT closeT fuel afterOpen

def matchNoLtCapture (openT closeT s : String) : Option String :=
  (matchNoLtAux openT.toList closeT.toList (s.length + 1) s.toList).map fun l => ⟨l⟩

/-- All matches of /<item>[\s\S]*?<\/item>/gi in document order
(statusSources.ts line 118): each block is the original text from an opening
item tag through the first closing item tag after it. -/
def rssItemBlocksAux : Nat → List Char → List String
  | 0, _ => []
  | fuel + 1, l =>
    match splitOnPat chEqCI "<item>".toList l with
    | none => []
    | some (_, mo, afterOpen) =>
      match splitOnPat chEqCI "</item>".toList afterOpen with
      | none => []
      | some (content, mc, post) => (⟨mo ++ content ++ mc⟩ : String) :: rssItemBlocksAux fuel post

def rssItemBlocks (xml : String) : List String := rssItemBlocksAux (xml.length + 1) xml.toList

-- ─────────────────────────────
-- NETWORK BEHAVIOUR MODEL
-- ─────────────────────────────

/-- Behaviour of one `await fetch(url)` call together with the body read
(`res.text()` / `res.json()`): the fetch may throw; otherwise it yields an
HTTP status code and the body read may itself throw or yield a value. -/
inductive NetResult (β : Type) where
  | throws
  | responds (status : Nat) (body : Except Unit β)

/-- Behaviour of a fetch whose body is never read (the simple ping). -/
inductive SimpleFetch where
  | throws
  | responds (status : Nat)

/-- Model of `res.ok`: status in the 200-299 range (WHATWG fetch). -/
def respOk (status : Nat) : Bool := decide (200 ≤ status ∧ status ≤ 299)

/-- JS `a || b` on strings: the empty string is falsy. -/
def jsOr (a b : String) : String := if a.isEmpty then b else a

/-- JS `a ?? b` on two optional strings. -/
def jsNullish (a b : Option String) : Option String :=
  match a with
  | some x => some x
  | none => b

-- ─────────────────────────────
-- PARSED STATUSPAGE JSON DOCUMENT (the fields the source reads)
-- ─────────────────────────────

structure StatuspageStatus where
  indicator : Option String := none
  description : Option String := none
deriving DecidableEq, Repr

structure StatuspagePage where
  updated_at : Option String := none
deriving DecidableEq, Repr

structure Incident where
  name : Option String := none
  started_at : Option String := none
  created_at : Option String := none
  shortlink : Option String := none
  url : Option String := none
deriving DecidableEq, Repr

structure StatuspageData where
  status : Option StatuspageStatus := none
  page : Option StatuspagePage := none
  incidents : Option (List Incident) := none
deriving DecidableEq, Repr

-- ─────────────────────────────
-- SOURCE FETCHERS (lib/statusSources.ts, lines 105-317 and 391-439)
-- ─────────────────────────────

/-- The catch block of `getRssStatus` (statusSources.ts lines 169-189). -/
def rssCatch (id name url : String) (detailUrl : Option String) (now : String) : StatusSummary :=
  { id := id, name := name, status := .degraded,
    detailUrl := some (detailUrl.getD url), lastUpdated := some now,
    message := some "Unable to fetch status feed",
    latestItems := some [{ title := "Unable to fetch status feed", date := some now,
                           link := some (detailUrl.getD url) }] }

/-- The per-block item construction inside `getRssStatus`
(statusSources.ts lines 139-154). -/
def rssItemOfBlock (block : String) : StatusItem :=
  let rawItemTitle := (matchLazyCapture "<title>" "</title>" block).getD ""
  let rawItemDesc := (matchLazyCapture "<description>" "</description>" block).getD ""
  let date := (matchNoLtCapture "<pubDate>" "</pubDate>" block).map trimStr
  let link := (matchNoLtCapture "<link>" "</link>" block).map trimStr
  let plain := stripHtml (jsOr rawItemTitle (jsOr rawItemDesc "No title"))
  { title := truncate plain 120, date := date, link := link }

/-- `getRssStatus` (statusSources.ts lines 105-190). -/
def getRssStatus (id name url : String) (detailUrl : Option String)
    (net : NetResult String) (now : String) : StatusSummary :=
  match net with
  | .throws => rssCatch id name url detailUrl now
  | .responds status body =>
    if respOk status then
      match body with
      | .error _ => rssCatch id name url detailUrl now
      | .ok xml =>
        let itemBlocks := rssItemBlocks xml
        let firstItem := itemBlocks.headD ""
        let rawTitle := (matchLazyCapture "<title>" "</title>" firstItem).getD ""
        let rawDesc := (matchLazyCapture "<description>" "</description>" firstItem).getD ""
        let plainTitle := stripHtml rawTitle
        let plainDesc := stripHtml rawDesc
        let lastUpdated := (matchNoLtCapture "<pubDate>" "</pubDate>" firstItem).map trimStr
        let combinedPlain := trimStr (plainTitle ++ " " ++ plainDesc)
        let status := inferStatusFromText combinedPlain
        let latestItems := (itemBlocks.take 3).map rssItemOfBlock
        let messageSource :=
          jsOr combinedPlain (jsOr plainTitle (jsOr plainDesc "No recent items in feed"))
        let message := truncate messageSource 260
        { id := id, name := name, status := status,
          detailUrl := some (detailUrl.getD url), lastUpdated := lastUpdated,
          message := some message,
          latestItems := if latestItems.isEmpty then none else some latestItems }
    else rssCatch id name url detailUrl now

/-- `getSimpleHttpStatus` (statusSources.ts lines 215-269). -/
def getSimpleHttpStatus (id name url : String) (net : SimpleFetch) (now : String) :
    StatusSummary :=
  match net with
  | .responds status =>
    let ok := respOk status
    let st : StatusLevel :=
      if ok then .operational else if 500 ≤ status then .major_outage else .degraded
    let msg :=
      if ok then "Endpoint reachable (HTTP " ++ toString status ++ ")"
      else "Endpoint error (HTTP " ++ toString status ++ ")"
    { id := id, name := name, status := st, detailUrl := some url,
      lastUpdated := some now, message := some msg,
      latestItems := some [{ title := msg, date := some now, link := some url }] }
  | .throws =>
    { id := id, name := name, status := .degraded, detailUrl := some url,
      lastUpdated := some now, message := some "Unable to reach endpoint",
      latestItems := some [{ title := "Unable to reach endpoint", date := some now,
                             link := some url }] }

/-- The catch block of `getStatuspageStatus` (statusSources.ts lines 298-316). -/
def statuspageCatch (id name detailUrl now : String) : StatusSummary :=
  { id := id, name := name, status := .degraded, detailUrl := some detailUrl,
    lastUpdated := some now, message := some "Unable to fetch status",
    latestItems := some [{ title := "Unable to fetch " ++ name ++ " status",
                           date := some now, link := some detailUrl }] }

/-- `getStatuspageStatus` (statusSources.ts lines 274-317). -/
def getStatuspageStatus (id name url detailUrl : String)
    (net : NetResult StatuspageData) (now : String) : StatusSummary :=
  match net with
  | .throws => statuspageCatch id name detailUrl now
  | .responds status body =>
    if respOk status then
      match body with
      | .error _ => statuspageCatch id name detailUrl now
      | .ok data =>
        let indicator := data.status.bind fun s => s.indicator
        let st := mapStatuspageIndicator indicator
        let description := data.status.bind fun s => s.description
        let updatedAt := data.page.bind fun p => p.updated_at
        { id := id, name := name, status := st, detailUrl := some detailUrl,
          lastUpdated := updatedAt, message := description, latestItems := none }
    else statuspageCatch id name detailUrl now

/-- The catch block of `getCybersourceStatus` (statusSources.ts lines 420-438). -/
def cybersourceCatch (now : String) : StatusSummary :=
  { id := "cybersource", name := "Cybersource", status := .degraded,
    detailUrl := some "https://status.cybersource.com", lastUpdated := some now,
    message := some "Unable to fetch status",
    latestItems := some [{ title := "Unable to fetch Cybersource status",
                           date := some now, link := some "https://status.cybersource.com" }] }

/-- The per-incident item construction inside `getCybersourceStatus`
(statusSources.ts lines 404-409). -/
def cybersourceItemOfIncident (incident : Incident) : StatusItem :=
  { title := incident.name.getD "Incident",
    date := jsNullish incident.started_at incident.created_at,
    link := some ((jsNullish incident.shortlink incident.url).getD
      "https://status.cybersource.com") }

/-- `getCybersourceStatus` (statusSources.ts lines 391-439). -/
def getCybersourceStatus (net : NetResult StatuspageData) (now : String) : StatusSummary :=
  match net with
  | .throws => cybersourceCatch now
  | .responds status body =>
    if respOk status then
      match body with
      | .error _ => cybersourceCatch now
      | .ok data =>
        let indicator := data.status.bind fun s => s.indicator
        let st := mapStatuspageIndicator indicator
        let incidents := data.incidents.getD []
        let latestItems := (incidents.take 3).map cybersourceItemOfIncident
        { id := "cybersource", name := "Cybersource", status := st,
          detailUrl := some "https://status.cybersource.com",
          lastUpdated := data.page.bind fun p => p.updated_at,
          message := data.status.bind fun s => s.description,
          latestItems := if latestItems.isEmpty then none else some latestItems }
    else cybersourceCatch now

-- ─────────────────────────────
-- PROVIDERS AND AGGREGATOR (lib/statusSources.ts, lines 324-517)
-- ─────────────────────────────

def getCloudflareStatus (net : NetResult StatuspageData) (now : String) : StatusSummary :=
  getStatuspageStatus "cloudflare" "Cloudflare"
    "https://www.cloudflarestatus.com/api/v2/status.json"
    "https://www.cloudflarestatus.com" net now

def getAwsHealthStatus (net : SimpleFetch) (now : String) : StatusSummary :=
  getSimpleHttpStatus "aws-health" "AWS Health"
    "https://health.aws.amazon.com/health/status" net now

def getAwsHealthUsEast2Status (net : SimpleFetch) (now : String) : StatusSummary :=
  getSimpleHttpStatus "aws-health-us-east-2" "AWS Health (us-east-2)"
    "https://health.aws.amazon.com/health/status?region=us-east-2" net now

def getVercelStatus (net : NetResult StatuspageData) (now : String) : StatusSummary :=
  getStatuspageStatus "vercel" "Vercel"
    "https://www.vercel-status.com/api/v2/status.json"
    "https://www.vercel-status.com" net now

def getContentfulStatus (net : NetResult StatuspageData) (now : String) : StatusSummary :=
  getStatuspageStatus "contentful" "Contentful"
    "https://www.contentfulstatus.com/api/v2/status.json"
    "https://www.contentfulstatus.com" net now

def getJiraStatus (net : NetResult StatuspageData) (now : String) : StatusSummary :=
  getStatuspageStatus "jira" "Jira Software"
    "https://jira-software.status.atlassian.com/api/v2/status.json"
    "https://jira-software.status.atlassian.com/" net now

def getConfluenceStatus (net : NetResult StatuspageData) (now : String) : StatusSummary :=
  getStatuspageStatus "confluence" "Confluence"
    "https://confluence.status.atlassian.com/api/v2/status.json"
    "https://confluence.status.atlassian.com/" net now

def getCommercetoolsStatus (net : NetResult String) (now : String) : StatusSummary :=
  getRssStatus "commercetools" "commercetools"
    "https://status.commercetools.com/pages/56e4295370fe4ece420002bb/rss"
    (some "https://status.commercetools.com") net now

def getOrdergrooveStatus (net : SimpleFetch) (now : String) : StatusSummary :=
  getSimpleHttpStatus "ordergroove" "Ordergroove"
    "https://status.ordergroove.com/api/v2/status.json" net now

def getDatadogEuStatus (net : NetResult StatuspageData) (now : String) : StatusSummary :=
  getStatuspageStatus "datadog-eu" "Datadog EU"
    "https://status.datadoghq.eu/api/v2/status.json"
    "https://status.datadoghq.eu" net now

def getGithubStatus (net : NetResult StatuspageData) (now : String) : StatusSummary :=
  getStatuspageStatus "github" "GitHub"
    "https://www.githubstatus.com/api/v2/status.json"
    "https://www.githubstatus.com" net now

def getBoomiStatus (net : NetResult StatuspageData) (now : String) : StatusSummary :=
  getStatuspageStatus "boomi" "Boomi"
    "https://status.boomi.com/api/v2/status.json"
    "https://status.boomi.com" net now

/-- One aggregation run's network behaviour: what each provider's underlying
HTTP call did, plus the current timestamp. -/
structure Env where
  awsHealth : SimpleFetch
  awsHealthUsEast2 : SimpleFetch
  cloudflare : NetResult StatuspageData
  datadogEu : NetResult StatuspageData
  github : NetResult StatuspageData
  boomi : NetResult StatuspageData
  cybersource : NetResult StatuspageData
  commercetools : NetResult String
  ordergroove : SimpleFetch
  vercel : NetResult StatuspageData
  contentful : NetResult StatuspageData
  jira : NetResult StatuspageData
  confluence : NetResult StatuspageData
  now : String

/-- `getAllStatuses` (statusSources.ts lines 494-517): Promise.all over the
fixed roster, in source order. -/
def getAllStatuses (e : Env) : List StatusSummary :=
  [ getAwsHealthStatus e.awsHealth e.now,
    getAwsHealthUsEast2Status e.awsHealthUsEast2 e.now,
    getCloudflareStatus e.cloudflare e.now,
    getDatadogEuStatus e.datadogEu e.now,
    getGithubStatus e.github e.now,
    getBoomiStatus e.boomi e.now,
    getCybersourceStatus e.cybersource e.now,
    getCommercetoolsStatus e.commercetools e.now,
    getOrdergrooveStatus e.ordergroove e.now,
    getVercelStatus e.vercel e.now,
    getContentfulStatus e.contentful e.now,
    getJiraStatus e.jira e.now,
    getConfluenceStatus e.confluence e.now ]

-- ─────────────────────────────
-- SPEC-SIDE DEFINITIONS (for refinement comparison; written from the
-- specification's words, to be compared with the source translations above)
-- ─────────────────────────────

/-- The classifier exactly as the specification words it: empty text is
operational, any red-tier keyword gives major_outage, otherwise any amber-tier
keyword gives degraded, otherwise (green keyword or no keyword) operational. -/
def classifySpec (text : String) : StatusLevel :=
  let lower := strLower text
  if lower.isEmpty then
    .operational
  else if strIncludes lower "major outage" || strIncludes lower "critical" ||
      strIncludes lower "unavailable" || strIncludes lower "service disruption" ||
      strIncludes lower "downtime" || strIncludes lower "outage" then
    .major_outage
  else if strIncludes lower "partial" || strIncludes lower "degraded" ||
      strIncludes lower "degradation" || strIncludes lower "incident" ||
      strIncludes lower "maintenance" || strIncludes lower "investigating" ||
      strIncludes lower "monitoring" then
    .degraded
  else
    .operational

/-- RSS item title as the specification words it: the stripped title, falling
back to the stripped description when the stripped title is empty, falling
back to the literal "No title" when both are empty, truncated to 120. -/
def specItemTitleStripped (rawTitle rawDesc : String) : String :=
  truncate
    (if (stripHtml rawTitle).isEmpty then
      (if (stripHtml rawDesc).isEmpty then "No title" else stripHtml rawDesc)
    else stripHtml rawTitle) 120

/-- RSS item title as the code actually computes it: the fallback is decided
on the raw (unstripped) strings, and the chosen string is then stripped and
truncated to 120. -/
def specItemTitleRaw (rawTitle rawDesc : String) : String :=
  if rawTitle.isEmpty then
    (if rawDesc.isEmpty then "No title" else truncate (stripHtml rawDesc) 120)
  else truncate (stripHtml rawTitle) 120

/-- An RSS body whose single item has a title made only of markup and a
non-empty description. -/
def rssMarkupTitleXml : String :=
  "<item><title><b></b></title><description>hello</description></item>"

/-- A parsed status document with a critical indicator and two incidents, the
first of which carries an empty (but present) name. -/
def cyDocCritical : StatuspageData :=
  { status := some { indicator := some "critical", description := none },
    page := none,
    incidents := some [{ name := some "" }, { name := some "Incident B" }] }

/-- The failure-fallback shape asserted by the error-handling policy: degraded
status, a fixed non-empty message, the current timestamp, and exactly one
synthetic latest item. -/
def isFailureFallback (r : StatusSummary) (msg now : String) : Prop :=
  r.status = .degraded ∧ r.message = some msg ∧ msg ≠ "" ∧
    r.lastUpdated = some now ∧ ∃ it, r.latestItems = some [it]


-- ─────────────────────────────
-- HELPER LEMMAS
-- ─────────────────────────────

theorem getD_if_isEmpty {α : Type} (l : List α) :
    (if l.isEmpty then (none : Option (List α)) else some l).getD [] = l := by
  cases l <;> simp

theorem getRssStatus_id (i n u : String) (d : Option String) (net : NetResult String)
    (now : String) : (getRssStatus i n u d net now).id = i := by
  cases net with
  | throws => rfl
  | responds s b =>
    simp only [getRssStatus]
    split
    · cases b with
      | error e => rfl
      | ok xml => rfl
    · rfl

theorem getStatuspageStatus_id (i n u du : String) (net : NetResult StatuspageData)
    (now : String) : (getStatuspageStatus i n u du net now).id = i := by
  cases net with
  | throws => rfl
  | responds s b =>
    simp only [getStatuspageStatus]
    split
    · cases b with
      | error e => rfl
      | ok data => rfl
    · rfl

theorem getCybersourceStatus_id (net : NetResult StatuspageData) (now : String) :
    (getCybersourceStatus net now).id = "cybersource" := by
  cases net with
  | throws => rfl
  | responds s b =>
    simp only [getCybersourceStatus]
    split
    · cases b with
      | error e => rfl
      | ok data => rfl
    · rfl

theorem getSimpleHttpStatus_id (i n u : String) (net : SimpleFetch) (now : String) :
    (getSimpleHttpStatus i n u net now).id = i := by
  cases net <;> rfl

-- ─────────────────────────────
-- CLAIM THEOREMS
-- ─────────────────────────────

/-- C3: `inferStatusFromText` agrees everywhere with the classifier as the
spec words it (empty text operational; otherwise red-tier keywords give
major_outage, then amber-tier keywords give degraded, otherwise operational —
so it only ever returns one of the three levels of `StatusLevel`), and the
four quoted examples classify as stated. -/
theorem inferStatusFromText_correct :
    (∀ t, inferStatusFromText t = classifySpec t) ∧
    inferStatusFromText "" = .operational ∧
    inferStatusFromText "Major Outage in progress" = .major_outage ∧
    inferStatusFromText "partial service degradation" = .degraded ∧
    inferStatusFromText "All systems operational" = .operational := by
  refine ⟨fun t => ?_, by decide, by decide, by decide, by decide⟩
  simp only [inferStatusFromText, classifySpec]
  split_ifs <;> rfl

/-- C4: `mapStatuspageIndicator` sends none to operational, minor to degraded,
major and critical to major_outage, and everything else — missing value
included — to degraded. -/
theorem mapStatuspageIndicator_correct :
    mapStatuspageIndicator (some "none") = .operational ∧
    mapStatuspageIndicator (some "minor") = .degraded ∧
    mapStatuspageIndicator (some "major") = .major_outage ∧
    mapStatuspageIndicator (some "critical") = .major_outage ∧
    mapStatuspageIndicator none = .degraded ∧
    mapStatuspageIndicator (some "bogus") = .degraded ∧
    ∀ s, s ≠ "none" → s ≠ "minor" → s ≠ "major" → s ≠ "critical" →
      mapStatuspageIndicator (some s) = .degraded := by
  refine ⟨by decide, by decide, by decide, by decide, by decide, by decide, ?_⟩
  intro s h1 h2 h3 h4
  simp [mapStatuspageIndicator, h1, h2, h3, h4]

theorem mapStatuspageIndicator_correct_witness :
    mapStatuspageIndicator (some "weird") = .degraded :=
  mapStatuspageIndicator_correct.2.2.2.2.2.2 "weird"
    (by decide) (by decide) (by decide) (by decide)

/-- C9: `truncate` returns the input unchanged when its length is at most the
bound, and otherwise the first bound-1 characters with trailing whitespace
removed followed by one ellipsis character; the two quoted examples hold. -/
theorem truncate_correct :
    (∀ (s : String) (m : Nat), 1 ≤ m →
      (s.length ≤ m → truncate s m = s) ∧
      (m < s.length → truncate s m = trimEndStr ⟨s.toList.take (m - 1)⟩ ++ "…")) ∧
    truncate "hello" 10 = "hello" ∧
    truncate "abcdefghij" 5 = "abcd…" ∧
    (truncate "abcdefghij" 5).length = 5 := by
  refine ⟨fun s m hm => ⟨fun hle => ?_, fun hlt => ?_⟩, by decide, by decide, by decide⟩
  · unfold truncate
    by_cases he : s.isEmpty
    · rw [if_pos he, (String.isEmpty_iff s).mp he]
    · rw [if_neg he, if_pos hle]
  · have hne : ¬ s.isEmpty = true := by
      intro he
      have hs := (String.isEmpty_iff s).mp he
      rw [hs] at hlt
      have h00 : ("" : String).length = 0 := rfl
      omega
    have hnle : ¬ s.length ≤ m := by omega
    unfold truncate
    rw [if_neg hne, if_neg hnle]
    simp only [jsSliceTo]
    have h0 : ¬ ((m : Int) - 1 < 0) := by omega
    have h2 : (m : Int) - 1 < (s.length : Int) := by omega
    rw [if_neg h0, if_pos h2]
    have h3 : ((m : Int) - 1).toNat = m - 1 := by omega
    rw [h3]

theorem truncate_correct_witness :
    truncate "a bcd" 3 = trimEndStr ⟨"a bcd".toList.take 2⟩ ++ "…" :=
  (truncate_correct.1 "a bcd" 3 (by decide)).2 (by decide)

/-- C2: `getAllStatuses` always returns exactly one summary per configured
source — 13 summaries, whose ids are the fixed roster in source order — and
those ids are pairwise distinct, whatever each underlying fetch did. -/
theorem getAllStatuses_correct (e : Env) :
    (getAllStatuses e).length = 13 ∧
    (getAllStatuses e).map (fun r => r.id) =
      ["aws-health", "aws-health-us-east-2", "cloudflare", "datadog-eu", "github",
       "boomi", "cybersource", "commercetools", "ordergroove", "vercel",
       "contentful", "jira", "confluence"] ∧
    ((getAllStatuses e).map (fun r => r.id)).Nodup := by
  have h : (getAllStatuses e).map (fun r => r.id) =
      ["aws-health", "aws-health-us-east-2", "cloudflare", "datadog-eu", "github",
       "boomi", "cybersource", "commercetools", "ordergroove", "vercel",
       "contentful", "jira", "confluence"] := by
    simp only [getAllStatuses, List.map_cons, List.map_nil,
      getAwsHealthStatus, getAwsHealthUsEast2Status, getCloudflareStatus,
      getDatadogEuStatus, getGithubStatus, getBoomiStatus, getCommercetoolsStatus,
      getOrdergrooveStatus, getVercelStatus, getContentfulStatus, getJiraStatus,
      getConfluenceStatus,
      getRssStatus_id, getStatuspageStatus_id, getCybersourceStatus_id,
      getSimpleHttpStatus_id]
  refine ⟨rfl, h, ?_⟩
  rw [h]
  decide

/-- C1: no fetcher propagates an exception — each is a total function into
`StatusSummary` — and whenever the HTTP call throws, or (for the RSS,
Statuspage and Cybersource fetchers) responds with a non-success status, the
summary is degraded with the fetcher's fixed non-empty message, the current
timestamp as lastUpdated, and exactly one synthetic latest item; the
simple-reachability fetcher's non-success responses are covered by its own
status-code mapping instead. -/
theorem fetchers_failure_fallback :
    (∀ i n u d now,
      isFailureFallback (getRssStatus i n u d .throws now) "Unable to fetch status feed" now) ∧
    (∀ i n u d s b now, respOk s = false →
      isFailureFallback (getRssStatus i n u d (.responds s b) now)
        "Unable to fetch status feed" now) ∧
    (∀ i n u du now,
      isFailureFallback (getStatuspageStatus i n u du .throws now) "Unable to fetch status" now) ∧
    (∀ i n u du s b now, respOk s = false →
      isFailureFallback (getStatuspageStatus i n u du (.responds s b) now)
        "Unable to fetch status" now) ∧
    (∀ now, isFailureFallback (getCybersourceStatus .throws now) "Unable to fetch status" now) ∧
    (∀ s b now, respOk s = false →
      isFailureFallback (getCybersourceStatus (.responds s b) now) "Unable to fetch status" now) ∧
    (∀ i n u now,
      isFailureFallback (getSimpleHttpStatus i n u .throws now) "Unable to reach endpoint" now) := by
  refine ⟨?_, ?_, ?_, ?_, ?_, ?_, ?_⟩
  · exact fun i n u d now => ⟨rfl, rfl, by decide, rfl, ⟨_, rfl⟩⟩
  · intro i n u d s b now h
    have hr : getRssStatus i n u d (.responds s b) now = rssCatch i n u d now := by
      simp only [getRssStatus]
      rw [if_neg (by simp [h])]
    rw [hr]
    exact ⟨rfl, rfl, by decide, rfl, ⟨_, rfl⟩⟩
  · exact fun i n u du now => ⟨rfl, rfl, by decide, rfl, ⟨_, rfl⟩⟩
  · intro i n u du s b now h
    have hr : getStatuspageStatus i n u du (.responds s b) now = statuspageCatch i n du now := by
      simp only [getStatuspageStatus]
      rw [if_neg (by simp [h])]
    rw [hr]
    exact ⟨rfl, rfl, by decide, rfl, ⟨_, rfl⟩⟩
  · exact fun now => ⟨rfl, rfl, by decide, rfl, ⟨_, rfl⟩⟩
  · intro s b now h
    have hr : getCybersourceStatus (.responds s b) now = cybersourceCatch now := by
      simp only [getCybersourceStatus]
      rw [if_neg (by simp [h])]
    rw [hr]
    exact ⟨rfl, rfl, by decide, rfl, ⟨_, rfl⟩⟩
  · exact fun i n u now => ⟨rfl, rfl, by decide, rfl, ⟨_, rfl⟩⟩

theorem fetchers_failure_fallback_witness :
    isFailureFallback (getRssStatus "a" "A" "u" none (.responds 500 (.ok "x")) "t")
      "Unable to fetch status feed" "t" :=
  fetchers_failure_fallback.2.1 "a" "A" "u" none 500 (.ok "x") "t" (by decide)

/-- C5: the simple-reachability fetcher maps a success response to
operational, a non-success response with status at least 500 to major_outage
and below 500 to degraded, always with the templated message echoed by a
single synthetic latest item; when the call itself throws it is degraded with
message "Unable to reach endpoint". -/
theorem simple_http_mapping :
    (∀ i n u s now,
      (respOk s = true → (getSimpleHttpStatus i n u (.responds s) now).status = .operational) ∧
      (respOk s = false → 500 ≤ s →
        (getSimpleHttpStatus i n u (.responds s) now).status = .major_outage) ∧
      (respOk s = false → s < 500 →
        (getSimpleHttpStatus i n u (.responds s) now).status = .degraded) ∧
      (getSimpleHttpStatus i n u (.responds s) now).message =
        some (if respOk s then "Endpoint reachable (HTTP " ++ toString s ++ ")"
              else "Endpoint error (HTTP " ++ toString s ++ ")") ∧
      (getSimpleHttpStatus i n u (.responds s) now).latestItems =
        some [{ title := (if respOk s then "Endpoint reachable (HTTP " ++ toString s ++ ")"
                          else "Endpoint error (HTTP " ++ toString s ++ ")"),
                date := some now, link := some u }]) ∧
    (∀ i n u now,
      (getSimpleHttpStatus i n u .throws now).status = .degraded ∧
      (getSimpleHttpStatus i n u .throws now).message = some "Unable to reach endpoint" ∧
      (getSimpleHttpStatus i n u .throws now).latestItems =
        some [{ title := "Unable to reach endpoint", date := some now, link := some u }]) := by
  refine ⟨fun i n u s now => ⟨?_, ?_, ?_, rfl, rfl⟩, fun i n u now => ⟨rfl, rfl, rfl⟩⟩
  · intro h
    simp [getSimpleHttpStatus, h]
  · intro h h5
    simp [getSimpleHttpStatus, h, h5]
  · intro h h5
    have h6 : ¬ (500 ≤ s) := by omega
    simp [getSimpleHttpStatus, h, h6]

theorem simple_http_mapping_witness :
    (getSimpleHttpStatus "i" "n" "u" (.responds 503) "t").status = .major_outage :=
  (simple_http_mapping.1 "i" "n" "u" 503 "t").2.1 (by decide) (by decide)

theorem some_of_if_isEmpty {α : Type} (l l2 : List α)
    (h : (if l.isEmpty then (none : Option (List α)) else some l) = some l2) :
    l = l2 ∧ l ≠ [] := by
  cases l with
  | nil => simp at h
  | cons a t =>
    simp only [List.isEmpty_cons, Bool.false_eq_true, if_false, Option.some.injEq] at h
    exact ⟨h, by simp⟩

theorem singleton_item_bound (a : StatusItem) :
    ([a] : List StatusItem) ≠ [] ∧ ([a] : List StatusItem).length ≤ 3 :=
  ⟨by simp, by simp⟩

/-- C6: whenever any of the four fetchers returns a summary whose latestItems
field is present, the list is non-empty and has at most 3 entries; and on an
RSS body with exactly 5 item blocks, the RSS fetcher returns exactly the first
3 blocks, in document order, as latestItems. -/
theorem latestItems_bounds :
    (∀ i n u d net now l, (getRssStatus i n u d net now).latestItems = some l →
      l ≠ [] ∧ l.length ≤ 3) ∧
    (∀ i n u du net now l, (getStatuspageStatus i n u du net now).latestItems = some l →
      l ≠ [] ∧ l.length ≤ 3) ∧
    (∀ net now l, (getCybersourceStatus net now).latestItems = some l →
      l ≠ [] ∧ l.length ≤ 3) ∧
    (∀ i n u net now l, (getSimpleHttpStatus i n u net now).latestItems = some l →
      l ≠ [] ∧ l.length ≤ 3) ∧
    (∀ i n u d s xml now, respOk s = true → (rssItemBlocks xml).length = 5 →
      (getRssStatus i n u d (.responds s (.ok xml)) now).latestItems =
        some (((rssItemBlocks xml).take 3).map rssItemOfBlock) ∧
      (((rssItemBlocks xml).take 3).map rssItemOfBlock).length = 3) := by
  refine ⟨?_, ?_, ?_, ?_, ?_⟩
  · intro i n u d net now l h
    cases net with
    | throws =>
      simp only [getRssStatus, rssCatch, Option.some.injEq] at h
      rw [← h]
      exact singleton_item_bound _
    | responds s b =>
      by_cases hok : respOk s = true
      · cases b with
        | error e =>
          simp only [getRssStatus] at h
          rw [if_pos hok] at h
          simp only [rssCatch, Option.some.injEq] at h
          rw [← h]
          exact singleton_item_bound _
        | ok xml =>
          simp only [getRssStatus] at h
          rw [if_pos hok] at h
          dsimp only at h
          obtain ⟨hl, hne⟩ := some_of_if_isEmpty _ _ h
          refine ⟨hl ▸ hne, ?_⟩
          rw [← hl, List.length_map, List.length_take]
          omega
      · simp only [getRssStatus] at h
        rw [if_neg hok] at h
        simp only [rssCatch, Option.some.injEq] at h
        rw [← h]
        exact singleton_item_bound _
  · intro i n u du net now l h
    cases net with
    | throws =>
      simp only [getStatuspageStatus, statuspageCatch, Option.some.injEq] at h
      rw [← h]
      exact singleton_item_bound _
    | responds s b =>
      by_cases hok : respOk s = true
      · cases b with
        | error e =>
          simp only [getStatuspageStatus] at h
          rw [if_pos hok] at h
          simp only [statuspageCatch, Option.some.injEq] at h
          rw [← h]
          exact singleton_item_bound _
        | ok data =>
          simp only [getStatuspageStatus] at h
          rw [if_pos hok] at h
          dsimp only at h
          exact absurd h (by simp)
      · simp only [getStatuspageStatus] at h
        rw [if_neg hok] at h
        simp only [statuspageCatch, Option.some.injEq] at h
        rw [← h]
        exact singleton_item_bound _
  · intro net now l h
    cases net with
    | throws =>
      simp only [getCybersourceStatus, cybersourceCatch, Option.some.injEq] at h
      rw [← h]
      exact singleton_item_bound _
    | responds s b =>
      by_cases hok : respOk s = true
      · cases b with
        | error e =>
          simp only [getCybersourceStatus] at h
          rw [if_pos hok] at h
          simp only [cybersourceCatch, Option.some.injEq] at h
          rw [← h]
          exact singleton_item_bound _
        | ok data =>
          simp only [getCybersourceStatus] at h
          rw [if_pos hok] at h
          dsimp only at h
          obtain ⟨hl, hne⟩ := some_of_if_isEmpty _ _ h
          refine ⟨hl ▸ hne, ?_⟩
          rw [← hl, List.length_map, List.length_take]
          omega
      · simp only [getCybersourceStatus] at h
        rw [if_neg hok] at h
        simp only [cybersourceCatch, Option.some.injEq] at h
        rw [← h]
        exact singleton_item_bound _
  · intro i n u net now l h
    cases net with
    | throws =>
      simp only [getSimpleHttpStatus, Option.some.injEq] at h
      rw [← h]
      exact singleton_item_bound _
    | responds s =>
      simp only [getSimpleHttpStatus, Option.some.injEq] at h
      rw [← h]
      exact singleton_item_bound _
  · intro i n u d s xml now hok hlen
    have h3 : (((rssItemBlocks xml).take 3).map rssItemOfBlock).length = 3 := by
      rw [List.length_map, List.length_take, hlen]
      omega
    refine ⟨?_, h3⟩
    simp only [getRssStatus]
    rw [if_pos hok]
    dsimp only
    rw [if_neg]
    intro hE
    rw [List.isEmpty_iff.mp hE] at h3
    simp at h3

theorem latestItems_bounds_witness :
    (getRssStatus "a" "A" "u" none
      (.responds 200 (.ok
        "<item>a</item><item>b</item><item>c</item><item>d</item><item>e</item>")) "t").latestItems =
      some (((rssItemBlocks
        "<item>a</item><item>b</item><item>c</item><item>d</item><item>e</item>").take 3).map
          rssItemOfBlock) ∧
    (((rssItemBlocks
        "<item>a</item><item>b</item><item>c</item><item>d</item><item>e</item>").take 3).map
          rssItemOfBlock).length = 3 :=
  latestItems_bounds.2.2.2.2 "a" "A" "u" none 200
    "<item>a</item><item>b</item><item>c</item><item>d</item><item>e</item>" "t"
    (by decide) (by decide)

/-- C7 counterexample: a status document with indicator "critical" and two
incidents where the first incident's name is present but empty. The fetcher
does return major_outage and two items, but the first item's title is the
empty string, so "every item's title is non-empty" fails as stated. -/
theorem cybersource_empty_title_counterexample :
    (getCybersourceStatus (.responds 200 (.ok cyDocCritical)) "2024-01-01").status =
      .major_outage ∧
    ((getCybersourceStatus (.responds 200 (.ok cyDocCritical)) "2024-01-01").latestItems.getD
        []).length = 2 ∧
    ¬ (∀ it ∈ (getCybersourceStatus (.responds 200 (.ok cyDocCritical))
        "2024-01-01").latestItems.getD [], it.title ≠ "") := by
  decide

/-- C7 (amended): given a status document with indicator "critical" and two
incidents, the Cybersource fetcher returns major_outage and two latestItems;
every item's title is non-empty provided each incident's name, when present,
is non-empty (the title falls back to "Incident" when the name is absent). -/
theorem cybersource_critical_incidents (de : Option String) (pg : Option StatuspagePage)
    (inc1 inc2 : Incident) (s : Nat) (now : String)
    (hok : respOk s = true)
    (h1 : ∀ x, inc1.name = some x → x ≠ "")
    (h2 : ∀ x, inc2.name = some x → x ≠ "") :
    (getCybersourceStatus (.responds s (.ok
      { status := some { indicator := some "critical", description := de },
        page := pg, incidents := some [inc1, inc2] })) now).status = .major_outage ∧
    ∃ l, (getCybersourceStatus (.responds s (.ok
        { status := some { indicator := some "critical", description := de },
          page := pg, incidents := some [inc1, inc2] })) now).latestItems = some l ∧
      l.length = 2 ∧ ∀ it ∈ l, it.title ≠ "" := by
  have hred : getCybersourceStatus (.responds s (.ok
      { status := some { indicator := some "critical", description := de },
        page := pg, incidents := some [inc1, inc2] })) now =
      { id := "cybersource", name := "Cybersource", status := .major_outage,
        detailUrl := some "https://status.cybersource.com",
        lastUpdated := pg.bind fun p => p.updated_at,
        message := de,
        latestItems := some [cybersourceItemOfIncident inc1, cybersourceItemOfIncident inc2] } := by
    simp only [getCybersourceStatus]
    rw [if_pos hok]
    rfl
  rw [hred]
  refine ⟨rfl, [cybersourceItemOfIncident inc1, cybersourceItemOfIncident inc2], rfl, rfl, ?_⟩
  intro it hit
  have htitle : ∀ inc : Incident, (∀ x, inc.name = some x → x ≠ "") →
      (cybersourceItemOfIncident inc).title ≠ "" := by
    intro inc hn
    show inc.name.getD "Incident" ≠ ""
    cases he : inc.name with
    | none => decide
    | some x =>
      simp only [Option.getD_some]
      exact hn x he
  simp only [List.mem_cons, List.not_mem_nil, or_false] at hit
  rcases hit with h | h
  · rw [h]; exact htitle inc1 h1
  · rw [h]; exact htitle inc2 h2

theorem cybersource_critical_incidents_witness :
    (getCybersourceStatus (.responds 200 (.ok
      { status := some { indicator := some "critical", description := none },
        page := none, incidents := some [{ name := some "Incident A" }, {}] })) "t").status =
      .major_outage ∧
    ∃ l, (getCybersourceStatus (.responds 200 (.ok
        { status := some { indicator := some "critical", description := none },
          page := none, incidents := some [{ name := some "Incident A" }, {}] })) "t").latestItems =
        some l ∧ l.length = 2 ∧ ∀ it ∈ l, it.title ≠ "" :=
  cybersource_critical_incidents none none { name := some "Incident A" } {} 200 "t"
    (by decide)
    (by
      intro x hx
      have h := Option.some.inj hx
      rw [← h]
      decide)
    (fun x hx => Option.noConfusion hx)

theorem rssItemOfBlock_title (b : String) :
    (rssItemOfBlock b).title =
      specItemTitleRaw ((matchLazyCapture "<title>" "</title>" b).getD "")
        ((matchLazyCapture "<description>" "</description>" b).getD "") := by
  simp only [rssItemOfBlock, specItemTitleRaw, jsOr]
  split_ifs <;> rfl

/-- C8 counterexample: an RSS item whose raw title is pure markup and whose
description is "hello". The spec's reading (fall back when the *stripped*
title is empty) predicts title "hello"; the code falls back on the *raw*
title, so it strips the markup-only title and yields "". -/
theorem rss_item_title_counterexample :
    ((getRssStatus "x" "X" "u" none (.responds 200 (.ok rssMarkupTitleXml)) "t").latestItems.getD
        []).map (fun it => it.title) = [""] ∧
    specItemTitleStripped "<b></b>" "hello" = "hello" ∧
    ("" : String) ≠ "hello" := by
  decide

/-- C8 (amended): for each of the up-to-3 extracted item blocks, the item
title is the truncation to 120 characters of the stripped chosen string,
where the choice falls back from the raw title to the raw description to the
literal "No title" — the fallback is decided on the raw strings before
markup stripping, so a non-empty raw title that strips to nothing yields an
empty title. -/
theorem rss_item_title_amended (i n u : String) (d : Option String) (s : Nat)
    (xml now : String) (hok : respOk s = true) :
    ((getRssStatus i n u d (.responds s (.ok xml)) now).latestItems.getD []).map
        (fun it => it.title) =
      ((rssItemBlocks xml).take 3).map (fun b =>
        specItemTitleRaw ((matchLazyCapture "<title>" "</title>" b).getD "")
          ((matchLazyCapture "<description>" "</description>" b).getD "")) := by
  simp only [getRssStatus]
  rw [if_pos hok]
  dsimp only
  rw [getD_if_isEmpty, List.map_map]
  refine List.map_congr_left ?_
  intro b _
  exact rssItemOfBlock_title b

theorem rss_item_title_amended_witness :
    ((getRssStatus "x" "X" "u" none (.responds 200 (.ok rssMarkupTitleXml))
        "t").latestItems.getD []).map (fun it => it.title) =
      ((rssItemBlocks rssMarkupTitleXml).take 3).map (fun b =>
        specItemTitleRaw ((matchLazyCapture "<title>" "</title>" b).getD "")
          ((matchLazyCapture "<description>" "</description>" b).getD "")) :=
  rss_item_title_amended "x" "X" "u" none 200 rssMarkupTitleXml "t" (by decide)

theorem getRssStatus_detailUrl (i n u : String) (d : Option String) (net : NetResult String)
    (now : String) : (getRssStatus i n u d net now).detailUrl = some (d.getD u) := by
  cases net with
  | throws => rfl
  | responds s b =>
    simp only [getRssStatus]
    split
    · cases b with
      | error e => rfl
      | ok xml => rfl
    · rfl

theorem getStatuspageStatus_detailUrl (i n u du : String) (net : NetResult StatuspageData)
    (now : String) : (getStatuspageStatus i n u du net now).detailUrl = some du := by
  cases net with
  | throws => rfl
  | responds s b =>
    simp only [getStatuspageStatus]
    split
    · cases b with
      | error e => rfl
      | ok data => rfl
    · rfl

theorem getCybersourceStatus_detailUrl (net : NetResult StatuspageData) (now : String) :
    (getCybersourceStatus net now).detailUrl = some "https://status.cybersource.com" := by
  cases net with
  | throws => rfl
  | responds s b =>
    simp only [getCybersourceStatus]
    split
    · cases b with
      | error e => rfl
      | ok data => rfl
    · rfl

theorem getSimpleHttpStatus_detailUrl (i n u : String) (net : SimpleFetch) (now : String) :
    (getSimpleHttpStatus i n u net now).detailUrl = some u := by
  cases net <;> rfl

/-- C10: every summary any fetcher returns — success path or failure path —
carries a defined detailUrl: the configured detail URL, or the fetch URL when
no separate detail URL is configured; it is non-empty whenever the configured
URLs are. -/
theorem detailUrl_present :
    (∀ i n u d net now, u ≠ "" → (∀ x, d = some x → x ≠ "") →
      (getRssStatus i n u d net now).detailUrl = some (d.getD u) ∧ d.getD u ≠ "") ∧
    (∀ i n u du net now, du ≠ "" →
      (getStatuspageStatus i n u du net now).detailUrl = some du ∧ du ≠ "") ∧
    (∀ net now,
      (getCybersourceStatus net now).detailUrl = some "https://status.cybersource.com" ∧
      ("https://status.cybersource.com" : String) ≠ "") ∧
    (∀ i n u net now, u ≠ "" →
      (getSimpleHttpStatus i n u net now).detailUrl = some u ∧ u ≠ "") := by
  refine ⟨?_, ?_, ?_, ?_⟩
  · intro i n u d net now hu hd
    refine ⟨getRssStatus_detailUrl i n u d net now, ?_⟩
    cases d with
    | none => simpa using hu
    | some x => simpa using hd x rfl
  · intro i n u du net now hdu
    exact ⟨getStatuspageStatus_detailUrl i n u du net now, hdu⟩
  · intro net now
    exact ⟨getCybersourceStatus_detailUrl net now, by decide⟩
  · intro i n u net now hu
    exact ⟨getSimpleHttpStatus_detailUrl i n u net now, hu⟩

theorem detailUrl_present_witness :
    (getRssStatus "a" "A" "https://example.com" none .throws "t").detailUrl =
      some ((none : Option String).getD "https://example.com") ∧
    ((none : Option String).getD "https://example.com") ≠ "" :=
  detailUrl_present.1 "a" "A" "https://example.com" none .throws "t" (by decide)
    (fun x hx => Option.noConfusion hx)
